import Mathlib

/-!
Shallow embedding of the Record-Store API core (NestJS/Mongoose service layer):
the catalog store (RecordService), order fulfillment (OrderService) and the
MusicBrainz metadata-enrichment client, together with proofs of the claimed
properties.

Modelling conventions:
* JavaScript numbers carrying prices are modelled as exact rationals (ℚ);
  quantities and pagination parameters as integers (ℤ).
* Mongoose documents live in plain lists; `_id` is a natural number and is
  the unique key that `findById` / `findByIdAndUpdate` address (the first
  matching document is the one read/written, as for a unique index).
* JavaScript truthiness on optional string/number inputs is modelled
  explicitly (`strTruthy`, `qTruthy`, `jsOrStr`): an absent field or an
  empty string / zero number is falsy.
* The enrichment HTTP+XML round trip is a `FetchOutcome`: the distinct
  observable situations of `fetchMusicBrainzData` (axios throwing, an empty
  body, an unparseable/metadata-less document, or a parsed document whose
  nodes are each optional).
* Timestamps (`new Date()`) are abstract ticks (Nat) supplied by the caller.
* Sorting of list endpoints is not modelled (no claim depends on it);
  filtering and pagination are. Mongo cursor semantics: `limit(0)` means
  "no limit"; a negative skip is clamped here.
-/

/-- JS truthiness of an optional string field: present and non-empty. -/
def strTruthy : Option String → Bool
  | some s => s != ""
  | none => false

/-- JS truthiness of an optional numeric field: present and nonzero. -/
def qTruthy : Option ℚ → Bool
  | some x => x != 0
  | none => false

/-- JS `x || y` on an optional string `x` with fallback `y`. -/
def jsOrStr (x : Option String) (y : String) : String :=
  match x with
  | some s => if s = "" then y else s
  | none => y

/-- Case-insensitive substring test, modelling `new RegExp(pat, 'i')` on a
literal pattern. -/
def containsCI (pat s : String) : Bool :=
  pat == "" || decide (2 ≤ (s.toLower.splitOn pat.toLower).length)

/-- Decidable equality on `Except`, so witnesses can be checked by `decide`. -/
instance {ε α : Type} [DecidableEq ε] [DecidableEq α] : DecidableEq (Except ε α) :=
  fun a b =>
    match a, b with
    | .error e, .error e' => decidable_of_iff (e = e') (by simp)
    | .ok x, .ok y => decidable_of_iff (x = y) (by simp)
    | .error _, .ok _ => isFalse fun hc => Except.noConfusion hc
    | .ok _, .error _ => isFalse fun hc => Except.noConfusion hc

/-- The five typed failures the core surfaces (spec §7 taxonomy; in the code
they are `BadRequestException` / `NotFoundException` with distinct messages). -/
inductive ApiError where
  | DuplicateEntity
  | NotFound
  | RecordNotFound
  | InsufficientStock
  deriving Repr, DecidableEq

/-- A persisted catalog entry (`record.schema`). -/
structure StoredRecord where
  _id : Nat
  artist : String
  album : String
  price : ℚ
  qty : ℤ
  format : String
  category : String
  mbid : Option String := none
  tracklist : List String := []
  created : Nat := 0
  lastModified : Nat := 0
  deriving Repr, DecidableEq

/-- A persisted order (`order.schema`). -/
structure Order where
  _id : Nat
  recordId : Nat
  quantity : ℤ
  totalPrice : ℚ
  orderDate : Nat
  customerName : String := ""
  customerEmail : String := ""
  shippingAddress : String := ""
  deriving Repr, DecidableEq

/-- The two entity collections of the document store. -/
structure StoreState where
  records : List StoredRecord
  orders : List Order
  deriving Repr, DecidableEq

/-- `CreateRecordDto` (validated: artist/album non-empty, price ≥ 0, qty ≥ 0). -/
structure CreateRecordDto where
  artist : String
  album : String
  price : ℚ
  qty : ℤ
  format : String
  category : String
  mbid : Option String := none
  deriving Repr, DecidableEq

/-- `UpdateRecordDto`: every field optional; absent fields are not written. -/
structure UpdateRecordDto where
  artist : Option String := none
  album : Option String := none
  price : Option ℚ := none
  qty : Option ℤ := none
  format : Option String := none
  category : Option String := none
  mbid : Option String := none
  deriving Repr, DecidableEq

/-- `CreateOrderDto` (validated: quantity ≥ 1, customer fields non-empty). -/
structure CreateOrderDto where
  recordId : Nat
  quantity : ℤ
  customerName : String := ""
  customerEmail : String := ""
  shippingAddress : String := ""
  deriving Repr, DecidableEq

/-- The normalized enrichment result (`MusicBrainzData`). -/
structure MusicBrainzData where
  tracklist : List String
  artist : Option String := none
  album : Option String := none
  releaseDate : Option String := none
  deriving Repr, DecidableEq

/-- One `<track>` node: its recording title, `none` when the
`track.recording[0].title[0]` chain is unextractable. -/
structure MBTrack where
  recordingTitle : Option String
  deriving Repr, DecidableEq

/-- The parsed `<release>` node; each child is optional exactly as the code
probes it (a field is `some` iff the corresponding truthy chain succeeds).
`mediumTrackList` is `none` when any of medium-list/medium/track-list is
missing, and otherwise holds the (possibly empty) `track` sequence. -/
structure MBRelease where
  title : Option String := none
  artistCreditName : Option String := none
  artistCreditArtistName : Option String := none
  date : Option String := none
  mediumTrackList : Option (List MBTrack) := none
  deriving Repr, DecidableEq

/-- The observable outcome of the outbound MusicBrainz request. -/
inductive FetchOutcome where
  /-- axios threw: network error, timeout, or non-2xx response. -/
  | requestError
  /-- 2xx response with a falsy body. -/
  | emptyBody
  /-- `parseStringPromise` threw, or the result lacks `metadata`. -/
  | parseFailure
  /-- Parsed document; `metadata.release[0]` is `none` when absent. -/
  | parsed (release : Option MBRelease)
  deriving Repr, DecidableEq

/-- `RecordService.fetchMusicBrainzData`: best-effort extraction, returning
`{ tracklist: [] }` on every hard failure and a partial result when deeper
nodes are missing. -/
def fetchMusicBrainzData : FetchOutcome → MusicBrainzData
  | .requestError => { tracklist := [] }
  | .emptyBody => { tracklist := [] }
  | .parseFailure => { tracklist := [] }
  | .parsed none => { tracklist := [] }
  | .parsed (some release) =>
    { tracklist :=
        match release.mediumTrackList with
        | none => []
        | some tracks => tracks.map fun t => t.recordingTitle.getD "Unknown Track"
      artist :=
        match release.artistCreditName with
        | some a => some a
        | none => release.artistCreditArtistName
      album := release.title
      releaseDate := release.date }

/-- `Model.findById`: the document with the given `_id` (first match, `_id`
being a unique key). -/
def findById (records : List StoredRecord) (id : Nat) : Option StoredRecord :=
  records.find? fun r => r._id == id

/-- `Model.findByIdAndUpdate`: rewrite the (unique) document with the given
`_id` by `f`, leaving everything else untouched. -/
def updateFirst (records : List StoredRecord) (id : Nat)
    (f : StoredRecord → StoredRecord) : List StoredRecord :=
  match records with
  | [] => []
  | r :: rest => if r._id == id then f r :: rest else r :: updateFirst rest id f

namespace RecordService

/-- `recordModel.findOne({artist, album, format})`. -/
def findOneTriple (records : List StoredRecord) (artist album format : String) :
    Option StoredRecord :=
  records.find? fun r => r.artist == artist && r.album == album && r.format == format

/-- `RecordService.create`: duplicate-triple pre-check, optional enrichment
(tracklist, and artist/album fallback for falsy DTO fields), then insert with
fresh id and both timestamps set to `now`. Returns the result together with
the resulting collection (unchanged on failure). -/
def create (records : List StoredRecord) (dto : CreateRecordDto)
    (enrich : FetchOutcome) (now freshId : Nat) :
    Except ApiError StoredRecord × List StoredRecord :=
  match findOneTriple records dto.artist dto.album dto.format with
  | some _ => (.error .DuplicateEntity, records)
  | none =>
    let mbData : MusicBrainzData :=
      if strTruthy dto.mbid then fetchMusicBrainzData enrich else { tracklist := [] }
    let record : StoredRecord :=
      { _id := freshId,
        artist := if strTruthy dto.mbid && dto.artist == "" then
            mbData.artist.getD dto.artist
          else dto.artist,
        album := if strTruthy dto.mbid && dto.album == "" then
            mbData.album.getD dto.album
          else dto.album,
        price := dto.price, qty := dto.qty, format := dto.format,
        category := dto.category, mbid := dto.mbid,
        tracklist := if strTruthy dto.mbid then mbData.tracklist else [],
        created := now, lastModified := now }
    (.ok record, records ++ [record])

/-- `RecordService.update`: not-found check; duplicate check on the effective
triple when any of artist/album/format is truthy in the DTO; enrichment when
the mbid is truthy and differs from the stored one (tracklist always replaced
then, artist/album overwritten by the enrichment values when not supplied in
the DTO); then a `findByIdAndUpdate` applying the present fields and bumping
`lastModified`. -/
def update (records : List StoredRecord) (id : Nat) (dto : UpdateRecordDto)
    (enrich : FetchOutcome) (now : Nat) :
    Except ApiError StoredRecord × List StoredRecord :=
  match findById records id with
  | none => (.error .NotFound, records)
  | some record =>
    let artist := jsOrStr dto.artist record.artist
    let album := jsOrStr dto.album record.album
    let format := jsOrStr dto.format record.format
    let dup :=
      (strTruthy dto.artist || strTruthy dto.album || strTruthy dto.format) &&
      records.any fun r =>
        r._id != id && r.artist == artist && r.album == album && r.format == format
    if dup then (.error .DuplicateEntity, records)
    else
      let mbChanged := strTruthy dto.mbid && dto.mbid != record.mbid
      let mbData : MusicBrainzData :=
        if mbChanged then fetchMusicBrainzData enrich else { tracklist := [] }
      let tracklist := if mbChanged then mbData.tracklist else record.tracklist
      let artistUpd :=
        if mbChanged && (!strTruthy dto.artist && mbData.artist.isSome) then
          mbData.artist
        else dto.artist
      let albumUpd :=
        if mbChanged && (!strTruthy dto.album && mbData.album.isSome) then
          mbData.album
        else dto.album
      let apply (r : StoredRecord) : StoredRecord :=
        { r with
          artist := artistUpd.getD r.artist,
          album := albumUpd.getD r.album,
          price := dto.price.getD r.price,
          qty := dto.qty.getD r.qty,
          format := dto.format.getD r.format,
          category := dto.category.getD r.category,
          mbid := match dto.mbid with | some m => some m | none => r.mbid,
          tracklist := tracklist,
          lastModified := now }
      (.ok (apply record), updateFirst records id apply)

/-- The flat query object of `GET /records` (string values coerced to their
numeric/text content by the boundary; sortBy/sortOrder are not modelled). -/
structure RecordQuery where
  artist : Option String := none
  album : Option String := none
  format : Option String := none
  category : Option String := none
  minPrice : Option ℚ := none
  maxPrice : Option ℚ := none
  inStock : Option String := none
  page : Option ℤ := none
  limit : Option ℤ := none
  deriving Repr, DecidableEq

/-- The Mongo filter built by `RecordService.findAll`, as a predicate: each
clause is added only when the query field is truthy. -/
def matchesFilter (q : RecordQuery) (r : StoredRecord) : Bool :=
  (if strTruthy q.artist then containsCI (q.artist.getD "") r.artist else true) &&
  (if strTruthy q.album then containsCI (q.album.getD "") r.album else true) &&
  (if strTruthy q.format then r.format == q.format.getD "" else true) &&
  (if strTruthy q.category then r.category == q.category.getD "" else true) &&
  (if strTruthy q.inStock then decide (0 < r.qty) else true) &&
  (if qTruthy q.minPrice || qTruthy q.maxPrice then
    (if qTruthy q.minPrice then decide (q.minPrice.getD 0 ≤ r.price) else true) &&
    (if qTruthy q.maxPrice then decide (r.price ≤ q.maxPrice.getD 0) else true)
   else true)

/-- The documents matching the filter, before pagination. -/
def filteredRecords (records : List StoredRecord) (q : RecordQuery) :
    List StoredRecord :=
  records.filter (matchesFilter q)

/-- Mongo `cursor.skip`: negative skip clamped to 0 here. -/
def mongoSkip (n : ℤ) (l : List StoredRecord) : List StoredRecord :=
  l.drop n.toNat

/-- Mongo `cursor.limit`: 0 means no limit; a negative limit behaves like its
absolute value. -/
def mongoLimit (n : ℤ) (l : List StoredRecord) : List StoredRecord :=
  if n = 0 then l else l.take n.natAbs

/-- The paginated response shape; `totalPages` is `none` when the JS value
`Math.ceil(total / limit)` is not a finite number (limit 0). -/
structure PaginatedRecords where
  data : List StoredRecord
  page : ℤ
  limit : ℤ
  total : Nat
  totalPages : Option ℤ
  deriving Repr, DecidableEq

/-- `RecordService.findAll`: destructuring defaults (page 1, limit 10) apply
only to absent fields; the supplied page/limit are used and echoed verbatim —
no clamping and no cap. -/
def findAll (records : List StoredRecord) (q : RecordQuery) : PaginatedRecords :=
  let page := q.page.getD 1
  let limit := q.limit.getD 10
  let filtered := filteredRecords records q
  let skip := (page - 1) * limit
  { data := mongoLimit limit (mongoSkip skip filtered),
    page := page,
    limit := limit,
    total := filtered.length,
    totalPages := if limit = 0 then none
      else some ⌈(filtered.length : ℚ) / (limit : ℚ)⌉ }

end RecordService

namespace OrderService

/-- `OrderService.create`: record lookup, stock pre-check, exact total price,
order insert, then the atomic `$inc` stock decrement on the record. Returns
the result with the resulting store state (unchanged on failure: no order is
persisted and no stock is touched). -/
def create (s : StoreState) (dto : CreateOrderDto) (now freshId : Nat) :
    Except ApiError Order × StoreState :=
  match findById s.records dto.recordId with
  | none => (.error .RecordNotFound, s)
  | some record =>
    if record.qty < dto.quantity then (.error .InsufficientStock, s)
    else
      let totalPrice := record.price * (dto.quantity : ℚ)
      let order : Order :=
        { _id := freshId, recordId := dto.recordId, quantity := dto.quantity,
          totalPrice := totalPrice, orderDate := now,
          customerName := dto.customerName, customerEmail := dto.customerEmail,
          shippingAddress := dto.shippingAddress }
      let records :=
        updateFirst s.records dto.recordId fun r => { r with qty := r.qty - dto.quantity }
      (.ok order, { records := records, orders := s.orders ++ [order] })

/-- The pagination part of the flat query object of `GET /orders`. -/
structure OrderQuery where
  page : Option ℤ := none
  limit : Option ℤ := none
  deriving Repr, DecidableEq

/-- The paginated order response shape. -/
structure PaginatedOrders where
  data : List Order
  page : ℤ
  limit : ℤ
  total : Nat
  totalPages : Option ℤ
  deriving Repr, DecidableEq

/-- `OrderService.findAll`: page coerced to at least 1, limit clamped into
[1, 100]; the clamped values are used for skip/limit and echoed. -/
def findAll (orders : List Order) (q : OrderQuery) : PaginatedOrders :=
  let page := max 1 (q.page.getD 1)
  let limit := max 1 (min 100 (q.limit.getD 10))
  let skip := (page - 1) * limit
  { data := (orders.drop skip.toNat).take limit.natAbs,
    page := page,
    limit := limit,
    total := orders.length,
    totalPages := if limit = 0 then none
      else some ⌈(orders.length : ℚ) / (limit : ℚ)⌉ }

end OrderService

/-- The stock invariant: every catalog entry has a non-negative quantity. -/
def RecordsOk (records : List StoredRecord) : Prop :=
  ∀ r ∈ records, 0 ≤ r.qty

/-! ### Concrete store contents and requests used by witnesses below -/

/-- The spec's running example record (§8 scenario). -/
def beatlesRecord : StoredRecord :=
  { _id := 0, artist := "The Beatles", album := "Abbey Road", price := 2999/100,
    qty := 5, format := "Vinyl", category := "Rock" }

/-- A second, unrelated catalog entry. -/
def wallRecord : StoredRecord :=
  { _id := 1, artist := "Pink Floyd", album := "The Wall", price := 25,
    qty := 2, format := "Vinyl", category := "Rock" }

/-- A create request sharing (artist, album, format) with `beatlesRecord` but
differing in every other field. -/
def duplicateCreateDto : CreateRecordDto :=
  { artist := "The Beatles", album := "Abbey Road", price := 1999/100,
    qty := 3, format := "Vinyl", category := "Pop", mbid := some "some-mbid" }

/-- A create request for the running example (no external identifier). -/
def beatlesCreateDto : CreateRecordDto :=
  { artist := "The Beatles", album := "Abbey Road", price := 2999/100,
    qty := 5, format := "Vinyl", category := "Rock" }

/-- An update that retargets record 0 onto `wallRecord`'s triple (format
omitted, falling back to the stored value). -/
def collideUpdateDto : UpdateRecordDto :=
  { artist := some "Pink Floyd", album := some "The Wall" }

/-- A record that already has an enrichment-supplied track list. -/
def trackedRecord : StoredRecord :=
  { _id := 0, artist := "Artist A", album := "Album A", price := 10, qty := 1,
    format := "Vinyl", category := "Rock", mbid := some "old-mbid",
    tracklist := ["Song A", "Song B"] }

/-- An update supplying only a changed external identifier. -/
def mbidOnlyUpdateDto : UpdateRecordDto := { mbid := some "new-mbid" }

/-- The §8 scenario order: quantity 3 against the 29.99-priced record. -/
def beatlesOrderDto : CreateOrderDto :=
  { recordId := 0, quantity := 3, customerName := "John Doe",
    customerEmail := "john@example.com", shippingAddress := "123 Main St" }

/-- The same order with quantity 20, exceeding the stock of 5. -/
def bigOrderDto : CreateOrderDto :=
  { recordId := 0, quantity := 20, customerName := "John Doe",
    customerEmail := "john@example.com", shippingAddress := "123 Main St" }

/-- The listing query of the pagination scenario: page -1, limit 0. -/
def negativePageQuery : RecordService.RecordQuery :=
  { page := some (-1), limit := some 0 }

/-- The same pagination parameters on the order listing. -/
def negativePageOrderQuery : OrderService.OrderQuery :=
  { page := some (-1), limit := some 0 }

/-- A price-range query whose two supplied bounds are both 0. -/
def zeroBoundsQuery : RecordService.RecordQuery :=
  { minPrice := some 0, maxPrice := some 0 }

/-- A price-range query [5, 20] with both bounds nonzero. -/
def midBoundsQuery : RecordService.RecordQuery :=
  { minPrice := some 5, maxPrice := some 20 }

/-- A parsed enrichment document holding only a release title: the
medium/track chain is missing. -/
def titleOnlyDoc : FetchOutcome := .parsed (some { title := some "Album X" })

/-- A parsed enrichment document holding only an artist-credit name. -/
def artistOnlyDoc : FetchOutcome :=
  .parsed (some { artistCreditName := some "Artist B" })

/-- The order the §8 scenario expects: totalPrice exactly 89.97. -/
def beatlesOrder : Order :=
  { _id := 0, recordId := 0, quantity := 3, totalPrice := 8997/100,
    orderDate := 7, customerName := "John Doe",
    customerEmail := "john@example.com", shippingAddress := "123 Main St" }

/-- `trackedRecord` after an mbid-changing update whose enrichment failed. -/
def trackedRecordAfter : StoredRecord :=
  { trackedRecord with mbid := some "new-mbid", tracklist := [], lastModified := 5 }

/-- A catalog entry priced at 10, for the price-filter counterexample. -/
def pricedRecord : StoredRecord :=
  { _id := 2, artist := "Artist C", album := "Album C", price := 10, qty := 1,
    format := "CD", category := "Jazz" }

/-- `trackedRecord` after an mbid-changing update whose enrichment returned
an artist-credit name but no track chain. -/
def enrichOverwrittenRecord : StoredRecord :=
  { trackedRecord with
      artist := "Artist B", mbid := some "new-mbid",
      tracklist := [], lastModified := 9 }

/-! ### Helper lemmas about the document-store primitives -/

theorem findById_updateFirst (l : List StoredRecord) (id : Nat)
    (f : StoredRecord → StoredRecord) (hf : ∀ r, (f r)._id = r._id) :
    findById (updateFirst l id f) id = (findById l id).map f := by
  induction l with
  | nil => rfl
  | cons a t ih =>
    by_cases h : (a._id == id) = true
    · simp [updateFirst, findById, List.find?_cons, h, hf a]
    · simp only [updateFirst, h, if_false, Bool.false_eq_true]
      simpa [findById, List.find?_cons, h, hf a] using ih

theorem mem_updateFirst {l : List StoredRecord} {id : Nat}
    {f : StoredRecord → StoredRecord} {x : StoredRecord}
    (hx : x ∈ updateFirst l id f) :
    x ∈ l ∨ ∃ r, findById l id = some r ∧ x = f r := by
  induction l with
  | nil => simp [updateFirst] at hx
  | cons a t ih =>
    by_cases h : (a._id == id) = true
    · simp only [updateFirst, h, if_true] at hx
      rcases List.mem_cons.mp hx with h1 | h2
      · exact Or.inr ⟨a, by simp [findById, List.find?_cons, h], h1⟩
      · exact Or.inl (List.mem_cons_of_mem a h2)
    · simp only [updateFirst, h, if_false, Bool.false_eq_true] at hx
      rcases List.mem_cons.mp hx with h1 | h2
      · exact Or.inl (h1 ▸ List.mem_cons_self a t)
      · rcases ih h2 with h3 | ⟨r, hr, hxr⟩
        · exact Or.inl (List.mem_cons_of_mem a h3)
        · exact Or.inr ⟨r, by simp [findById, List.find?_cons, h] at hr ⊢; exact hr, hxr⟩

theorem findById_mem {l : List StoredRecord} {id : Nat} {r : StoredRecord}
    (h : findById l id = some r) : r ∈ l :=
  List.mem_of_find?_eq_some h

/-! ### Claim C2 -/

/-- Claim C2: a catalog create whose (artist, album, format) triple equals the
triple of an existing live record fails with `DuplicateEntity` regardless of
any other field differences, and the failure occurs before any write: no new
record is stored and no existing record is modified. -/
theorem recordCreate_duplicate_rejected (records : List StoredRecord)
    (dto : CreateRecordDto) (enrich : FetchOutcome) (now freshId : Nat)
    (r : StoredRecord) (hr : r ∈ records) (ha : r.artist = dto.artist)
    (hb : r.album = dto.album) (hf : r.format = dto.format) :
    (RecordService.create records dto enrich now freshId).1 = .error .DuplicateEntity ∧
    (RecordService.create records dto enrich now freshId).2 = records := by
  have hsome : (RecordService.findOneTriple records dto.artist dto.album dto.format).isSome := by
    rw [RecordService.findOneTriple, List.find?_isSome]
    exact ⟨r, hr, by simp [ha, hb, hf]⟩
  rcases Option.isSome_iff_exists.mp hsome with ⟨x, hx⟩
  constructor <;> simp [RecordService.create, hx]

/-- Witness for C2 at the §8 scenario data. -/
theorem recordCreate_duplicate_rejected_witness :
    (RecordService.create [beatlesRecord] duplicateCreateDto .requestError 3 1).1
        = .error .DuplicateEntity ∧
    (RecordService.create [beatlesRecord] duplicateCreateDto .requestError 3 1).2
        = [beatlesRecord] :=
  recordCreate_duplicate_rejected [beatlesRecord] duplicateCreateDto .requestError 3 1
    beatlesRecord (List.mem_singleton.mpr rfl) rfl rfl rfl

/-! ### Claim C3 -/

/-- Claim C3: for an update touching any of artist/album/format, the effective
triple falls back to the stored values for omitted fields; if it coincides
with the triple of a different existing record, the update fails with
`DuplicateEntity` and the whole collection — in particular the original
record, its `lastModified` included — is left unmodified. -/
theorem recordUpdate_duplicate_rejected (records : List StoredRecord) (id : Nat)
    (dto : UpdateRecordDto) (enrich : FetchOutcome) (now : Nat)
    (record other : StoredRecord)
    (hfind : findById records id = some record)
    (htouch : (strTruthy dto.artist || strTruthy dto.album || strTruthy dto.format) = true)
    (hother : other ∈ records) (hne : other._id ≠ id)
    (ha : other.artist = jsOrStr dto.artist record.artist)
    (hb : other.album = jsOrStr dto.album record.album)
    (hf : other.format = jsOrStr dto.format record.format) :
    (RecordService.update records id dto enrich now).1 = .error .DuplicateEntity ∧
    (RecordService.update records id dto enrich now).2 = records := by
  have hany : (records.any fun r =>
      r._id != id && r.artist == jsOrStr dto.artist record.artist &&
      r.album == jsOrStr dto.album record.album &&
      r.format == jsOrStr dto.format record.format) = true := by
    rw [List.any_eq_true]
    exact ⟨other, hother, by simp [bne_iff_ne, hne, ha, hb, hf]⟩
  constructor <;> simp [RecordService.update, hfind, htouch, hany]

/-- Witness for C3: retargeting record 0 onto `wallRecord`'s triple with the
format omitted. -/
theorem recordUpdate_duplicate_rejected_witness :
    (RecordService.update [beatlesRecord, wallRecord] 0 collideUpdateDto .requestError 9).1
        = .error .DuplicateEntity ∧
    (RecordService.update [beatlesRecord, wallRecord] 0 collideUpdateDto .requestError 9).2
        = [beatlesRecord, wallRecord] :=
  recordUpdate_duplicate_rejected [beatlesRecord, wallRecord] 0 collideUpdateDto
    .requestError 9 beatlesRecord wallRecord rfl rfl
    (List.mem_cons_of_mem _ (List.mem_singleton.mpr rfl)) (by decide) rfl rfl rfl

/-! ### Claim C1 -/

/-- Claim C1: an order-creation request with quantity q against a record with
stock s succeeds when q ≤ s, appending exactly the expected order and leaving
the record's stock at s - q; when q > s it fails with `InsufficientStock`, the
whole store state — stock and persisted orders — being unchanged. -/
theorem orderCreate_stock (s : StoreState) (dto : CreateOrderDto)
    (now freshId : Nat) (r : StoredRecord)
    (hfind : findById s.records dto.recordId = some r) :
    (dto.quantity ≤ r.qty →
      (OrderService.create s dto now freshId).1 =
        .ok { _id := freshId, recordId := dto.recordId, quantity := dto.quantity,
              totalPrice := r.price * (dto.quantity : ℚ), orderDate := now,
              customerName := dto.customerName, customerEmail := dto.customerEmail,
              shippingAddress := dto.shippingAddress } ∧
      findById (OrderService.create s dto now freshId).2.records dto.recordId =
        some { r with qty := r.qty - dto.quantity } ∧
      (OrderService.create s dto now freshId).2.orders =
        s.orders ++ [{ _id := freshId, recordId := dto.recordId,
                       quantity := dto.quantity,
                       totalPrice := r.price * (dto.quantity : ℚ),
                       orderDate := now, customerName := dto.customerName,
                       customerEmail := dto.customerEmail,
                       shippingAddress := dto.shippingAddress }]) ∧
    (r.qty < dto.quantity →
      (OrderService.create s dto now freshId).1 = .error .InsufficientStock ∧
      (OrderService.create s dto now freshId).2 = s) := by
  constructor
  · intro hq
    have hnotlt : ¬r.qty < dto.quantity := not_lt.mpr hq
    refine ⟨by simp [OrderService.create, hfind, hnotlt], ?_, ?_⟩
    · have hmap := findById_updateFirst s.records dto.recordId
        (fun r' => { r' with qty := r'.qty - dto.quantity }) (fun _ => rfl)
      simp [OrderService.create, hfind, hnotlt, hmap]
    · simp [OrderService.create, hfind, hnotlt]
  · intro hq
    exact ⟨by simp [OrderService.create, hfind, hq], by simp [OrderService.create, hfind, hq]⟩

/-- Witness for C1 at the §8 scenario: quantity 3 against stock 5 leaves
stock 2; quantity 20 is rejected with the state untouched. -/
theorem orderCreate_stock_witness :
    beatlesOrderDto.quantity ≤ beatlesRecord.qty ∧
    findById (OrderService.create ⟨[beatlesRecord], []⟩ beatlesOrderDto 7 0).2.records
        beatlesOrderDto.recordId =
      some { beatlesRecord with qty := beatlesRecord.qty - beatlesOrderDto.quantity } ∧
    beatlesRecord.qty < bigOrderDto.quantity ∧
    (OrderService.create ⟨[beatlesRecord], []⟩ bigOrderDto 7 0).1 =
      .error .InsufficientStock ∧
    (OrderService.create ⟨[beatlesRecord], []⟩ bigOrderDto 7 0).2 =
      ⟨[beatlesRecord], []⟩ :=
  ⟨by decide,
   ((orderCreate_stock ⟨[beatlesRecord], []⟩ beatlesOrderDto 7 0 beatlesRecord rfl).1
      (by decide)).2.1,
   by decide,
   ((orderCreate_stock ⟨[beatlesRecord], []⟩ bigOrderDto 7 0 beatlesRecord rfl).2
      (by decide)).1,
   ((orderCreate_stock ⟨[beatlesRecord], []⟩ bigOrderDto 7 0 beatlesRecord rfl).2
      (by decide)).2⟩

/-! ### Claim C5 -/

/-- Claim C5: every successfully created order's totalPrice equals the
referenced record's price at the moment of the stock check multiplied by the
ordered quantity, exactly (prices modelled as exact rationals). -/
theorem orderCreate_totalPrice (s : StoreState) (dto : CreateOrderDto)
    (now freshId : Nat) (r : StoredRecord) (o : Order)
    (hfind : findById s.records dto.recordId = some r)
    (hok : (OrderService.create s dto now freshId).1 = .ok o) :
    o.totalPrice = r.price * (dto.quantity : ℚ) := by
  by_cases hq : r.qty < dto.quantity
  · simp [OrderService.create, hfind, hq] at hok
  · simp [OrderService.create, hfind, hq] at hok
    rw [← hok]

/-- Witness for C5 at the §8 scenario: price 29.99 at quantity 3 gives
exactly 89.97. -/
theorem orderCreate_totalPrice_witness :
    (OrderService.create ⟨[beatlesRecord], []⟩ beatlesOrderDto 7 0).1 =
      .ok beatlesOrder ∧
    beatlesOrder.totalPrice = beatlesRecord.price * (beatlesOrderDto.quantity : ℚ) ∧
    beatlesOrder.totalPrice = 8997/100 := by
  have hok : (OrderService.create ⟨[beatlesRecord], []⟩ beatlesOrderDto 7 0).1 =
      .ok beatlesOrder := by
    simp only [OrderService.create, findById, List.find?_cons, beatlesRecord,
      beatlesOrderDto, beatlesOrder]
    norm_num
  exact ⟨hok,
    orderCreate_totalPrice ⟨[beatlesRecord], []⟩ beatlesOrderDto 7 0 beatlesRecord
      beatlesOrder rfl hok,
    rfl⟩

/-! ### Claim C4 (corrected) -/

/-- Counterexample to C4 as stated: an update carrying a changed external
identifier whose enrichment fails does not keep the previous track list —
the stored ["Song A", "Song B"] is cleared to []. -/
theorem recordUpdate_enrichFail_clears_cex :
    (RecordService.update [trackedRecord] 0 mbidOnlyUpdateDto .requestError 5).1 =
      .ok trackedRecordAfter ∧
    trackedRecordAfter.tracklist = [] ∧
    trackedRecord.tracklist = ["Song A", "Song B"] :=
  ⟨rfl, rfl, rfl⟩

/-- C4 amended: when the update's external identifier is present and differs
from the stored one, the updated record's track list equals the enrichment
result; in particular, when enrichment fails the track list is replaced with
the empty list (cleared), not left at its previous value. -/
theorem recordUpdate_tracklist_replaced (records : List StoredRecord) (id : Nat)
    (dto : UpdateRecordDto) (enrich : FetchOutcome) (now : Nat)
    (record u : StoredRecord)
    (hfind : findById records id = some record)
    (hmb : strTruthy dto.mbid = true)
    (hch : dto.mbid ≠ record.mbid)
    (hok : (RecordService.update records id dto enrich now).1 = .ok u) :
    u.tracklist = (fetchMusicBrainzData enrich).tracklist ∧
    (enrich = .requestError ∨ enrich = .emptyBody ∨ enrich = .parseFailure →
      u.tracklist = []) := by
  have hbne : (dto.mbid != record.mbid) = true := bne_iff_ne.mpr hch
  simp [RecordService.update, hfind, hmb, hbne] at hok
  split at hok
  · simp at hok
  · simp at hok
    subst hok
    refine ⟨by simp [hmb, hbne], ?_⟩
    rintro (rfl | rfl | rfl) <;> simp [fetchMusicBrainzData]

/-- Witness for the amended C4 at concrete data: a failed enrichment during a
mbid-changing update leaves the track list empty. -/
theorem recordUpdate_tracklist_replaced_witness :
    trackedRecordAfter.tracklist = (fetchMusicBrainzData .requestError).tracklist ∧
    (FetchOutcome.requestError = .requestError ∨
      FetchOutcome.requestError = .emptyBody ∨
      FetchOutcome.requestError = .parseFailure →
      trackedRecordAfter.tracklist = []) :=
  recordUpdate_tracklist_replaced [trackedRecord] 0 mbidOnlyUpdateDto .requestError 5
    trackedRecord trackedRecordAfter rfl rfl (by decide) rfl

/-! ### Claim C10 -/

/-- Claim C10: an update supplying a changed external identifier but omitting
artist does not leave the stored artist unchanged — the enrichment-supplied
artist overwrites it, so enrichment modifies fields beyond the track list. -/
theorem recordUpdate_enrichment_overwrites_artist :
    (RecordService.update [trackedRecord] 0 mbidOnlyUpdateDto artistOnlyDoc 9).1 =
      .ok enrichOverwrittenRecord ∧
    findById (RecordService.update [trackedRecord] 0 mbidOnlyUpdateDto artistOnlyDoc 9).2 0 =
      some enrichOverwrittenRecord ∧
    mbidOnlyUpdateDto.artist = none ∧
    trackedRecord.artist = "Artist A" ∧
    enrichOverwrittenRecord.artist = "Artist B" :=
  ⟨rfl, rfl, rfl, rfl, rfl⟩

/-! ### Claim C6 (code bug on the record listing) -/

/-- C6 evaluated at the failing input: the record listing answers
page = -1, limit = 0 as supplied — no clamping, contradicting the
repository's own e2e expectation of page ≥ 1 and limit ≥ 1 — while the order
listing clamps the same input to page 1, limit 1. -/
theorem findAll_pagination_unclamped :
    (RecordService.findAll [] negativePageQuery).page = -1 ∧
    (RecordService.findAll [] negativePageQuery).limit = 0 ∧
    (OrderService.findAll [] negativePageOrderQuery).page = 1 ∧
    (OrderService.findAll [] negativePageOrderQuery).limit = 1 :=
  ⟨rfl, rfl, rfl, rfl⟩

/-! ### Claim C7 (corrected) -/

/-- Counterexample to C7 as stated: a partially missing document — a release
carrying a title but no medium/track chain — does not degrade to "no
artist/album/date": the album comes back populated. -/
theorem fetch_titleOnly_keeps_album_cex :
    fetchMusicBrainzData titleOnlyDoc =
      { tracklist := [], artist := none, album := some "Album X",
        releaseDate := none } ∧
    (fetchMusicBrainzData titleOnlyDoc).album ≠ none :=
  ⟨rfl, fun hc => Option.noConfusion hc⟩

/-- C7 amended: hard enrichment failures — network error/timeout, non-success
response, empty body, unparseable or metadata- or release-less document —
degrade to an empty track list with no artist/album/date (a parsed document
missing only deeper nodes instead yields a best-effort partial result, per
the counterexample), and record creation with an external identifier still
succeeds with tracklist = [] in all these cases. -/
theorem fetch_hardFailure_degrades (enrich : FetchOutcome)
    (records : List StoredRecord) (dto : CreateRecordDto) (now freshId : Nat)
    (hfail : enrich = .requestError ∨ enrich = .emptyBody ∨
      enrich = .parseFailure ∨ enrich = .parsed none)
    (hnodup : RecordService.findOneTriple records dto.artist dto.album dto.format = none)
    (hmb : strTruthy dto.mbid = true) :
    fetchMusicBrainzData enrich =
      { tracklist := [], artist := none, album := none, releaseDate := none } ∧
    ∃ rec, (RecordService.create records dto enrich now freshId).1 = .ok rec ∧
      rec.tracklist = [] ∧
      (RecordService.create records dto enrich now freshId).2 = records ++ [rec] := by
  have hdata : fetchMusicBrainzData enrich =
      { tracklist := [], artist := none, album := none, releaseDate := none } := by
    rcases hfail with rfl | rfl | rfl | rfl <;> rfl
  refine ⟨hdata, ?_⟩
  cases hres : (RecordService.create records dto enrich now freshId).1 with
  | error e =>
    exfalso
    simp [RecordService.create, hnodup] at hres
  | ok rec =>
    refine ⟨rec, rfl, ?_, ?_⟩
    · have h2 := hres
      simp [RecordService.create, hnodup, hmb, hdata] at h2
      subst h2
      simp [hmb, hdata]
    · have h2 := hres
      simp [RecordService.create, hnodup, hmb, hdata] at h2
      subst h2
      simp [RecordService.create, hnodup, hmb, hdata]

/-- Witness for the amended C7: creation with an unparseable enrichment
response still succeeds, with an empty track list. -/
theorem fetch_hardFailure_degrades_witness :
    fetchMusicBrainzData .parseFailure =
      { tracklist := [], artist := none, album := none, releaseDate := none } ∧
    ∃ rec, (RecordService.create [] duplicateCreateDto .parseFailure 3 1).1 = .ok rec ∧
      rec.tracklist = [] ∧
      (RecordService.create [] duplicateCreateDto .parseFailure 3 1).2 = [] ++ [rec] :=
  fetch_hardFailure_degrades .parseFailure [] duplicateCreateDto 3 1
    (Or.inr (Or.inr (Or.inl rfl))) rfl rfl

/-! ### Claim C8 (corrected) -/

/-- Counterexample to C8 as stated: with both price bounds supplied as 0, the
price filter is dropped entirely (JavaScript truthiness), so a record priced
10 — outside the inclusive range [0, 0] — is returned. -/
theorem findAll_zeroBounds_ignored_cex :
    (RecordService.findAll [pricedRecord] zeroBoundsQuery).data = [pricedRecord] ∧
    ¬(pricedRecord.price ≤ zeroBoundsQuery.maxPrice.getD 0) := by
  refine ⟨rfl, ?_⟩
  norm_num [pricedRecord, zeroBoundsQuery]

/-- C8 amended: for a supplied pair of *nonzero* bounds, the listing's match
set is exactly the records whose price lies in the inclusive range
[minPrice, maxPrice]; a supplied bound equal to 0 is treated as absent and
silently dropped (per the counterexample). -/
theorem filteredRecords_price_range (records : List StoredRecord) (mn mx : ℚ)
    (r : StoredRecord) (hmn : mn ≠ 0) (hmx : mx ≠ 0) :
    r ∈ RecordService.filteredRecords records
        { minPrice := some mn, maxPrice := some mx } ↔
      r ∈ records ∧ mn ≤ r.price ∧ r.price ≤ mx := by
  simp [RecordService.filteredRecords, RecordService.matchesFilter,
    List.mem_filter, strTruthy, qTruthy, bne_iff_ne, hmn, hmx]

/-- Witness for the amended C8: the price-10 record is matched by the
range [5, 20]. -/
theorem filteredRecords_price_range_witness :
    pricedRecord ∈ RecordService.filteredRecords [pricedRecord] midBoundsQuery :=
  (filteredRecords_price_range [pricedRecord] 5 20 pricedRecord
      (by norm_num) (by norm_num)).mpr
    ⟨List.mem_singleton.mpr rfl, by norm_num [pricedRecord], by norm_num [pricedRecord]⟩

/-! ### Claim C9 -/

/-- Every document in the collection left by `RecordService.update` is either
an untouched original or the rewrite of the record found by `findById`, whose
quantity is the DTO quantity when present and the stored one otherwise. -/
theorem mem_update_state {records : List StoredRecord} {id : Nat}
    {dto : UpdateRecordDto} {enrich : FetchOutcome} {now : Nat} {r : StoredRecord}
    (hr : r ∈ (RecordService.update records id dto enrich now).2) :
    r ∈ records ∨ ∃ rec, findById records id = some rec ∧
      r.qty = dto.qty.getD rec.qty := by
  cases hfind : findById records id with
  | none =>
    simp [RecordService.update, hfind] at hr
    exact Or.inl hr
  | some rec =>
    simp only [RecordService.update, hfind] at hr
    split at hr
    · exact Or.inl hr
    · rcases mem_updateFirst hr with h | ⟨rec2, hrec2, rfl⟩
      · exact Or.inl h
      · rw [hfind] at hrec2
        exact Or.inr ⟨rec2, hrec2, rfl⟩

/-- Claim C9: quantity-in-stock stays a non-negative integer in every
reachable state: catalog create (validated qty ≥ 0), catalog update
(validated qty ≥ 0 when supplied), and order creation (which decrements only
after the stock check) each preserve non-negativity of every record's qty. -/
theorem qty_invariant_preserved (records : List StoredRecord)
    (hwf : RecordsOk records) :
    (∀ (dto : CreateRecordDto) (enrich : FetchOutcome) (now freshId : Nat),
      0 ≤ dto.qty →
      RecordsOk (RecordService.create records dto enrich now freshId).2) ∧
    (∀ (id : Nat) (dto : UpdateRecordDto) (enrich : FetchOutcome) (now : Nat),
      (∀ q, dto.qty = some q → 0 ≤ q) →
      RecordsOk (RecordService.update records id dto enrich now).2) ∧
    (∀ (orders : List Order) (dto : CreateOrderDto) (now freshId : Nat),
      RecordsOk (OrderService.create ⟨records, orders⟩ dto now freshId).2.records) := by
  refine ⟨?_, ?_, ?_⟩
  · intro dto enrich now freshId hq
    cases hdup : RecordService.findOneTriple records dto.artist dto.album dto.format with
    | some x =>
      intro r hr
      simp [RecordService.create, hdup] at hr
      exact hwf r hr
    | none =>
      intro r hr
      simp [RecordService.create, hdup] at hr
      rcases hr with hr | hr
      · exact hwf r hr
      · subst hr
        exact hq
  · intro id dto enrich now hq r hr
    rcases mem_update_state hr with h | ⟨rec, hrec, hqty⟩
    · exact hwf r h
    · rw [hqty]
      cases hdq : dto.qty with
      | none => exact hwf rec (findById_mem hrec)
      | some q => exact hq q hdq
  · intro orders dto now freshId r hr
    cases hfind : findById records dto.recordId with
    | none =>
      simp [OrderService.create, hfind] at hr
      exact hwf r hr
    | some rec =>
      by_cases hlt : rec.qty < dto.quantity
      · simp [OrderService.create, hfind, hlt] at hr
        exact hwf r hr
      · simp [OrderService.create, hfind, hlt] at hr
        rcases mem_updateFirst hr with h | ⟨rec2, hrec2, rfl⟩
        · exact hwf r h
        · rw [hfind] at hrec2
          injection hrec2 with h2
          subst h2
          have h1 : dto.quantity ≤ rec.qty := not_lt.mp hlt
          have h0 : 0 ≤ rec.qty := hwf rec (findById_mem hfind)
          simp only []
          omega

/-- Witness for C9: the invariant survives a concrete create, a concrete
update and a concrete order against a one-record store. -/
theorem qty_invariant_preserved_witness :
    RecordsOk (RecordService.create [beatlesRecord] beatlesCreateDto .requestError 3 1).2 ∧
    RecordsOk (RecordService.update [beatlesRecord] 0 mbidOnlyUpdateDto .requestError 5).2 ∧
    RecordsOk (OrderService.create ⟨[beatlesRecord], []⟩ beatlesOrderDto 7 0).2.records := by
  have hwf : RecordsOk [beatlesRecord] := by
    intro r hr
    rw [List.mem_singleton.mp hr]
    decide
  exact ⟨(qty_invariant_preserved [beatlesRecord] hwf).1 beatlesCreateDto .requestError 3 1
      (by decide),
    (qty_invariant_preserved [beatlesRecord] hwf).2.1 0 mbidOnlyUpdateDto .requestError 5
      (by intro q hq; simp [mbidOnlyUpdateDto] at hq),
    (qty_invariant_preserved [beatlesRecord] hwf).2.2 [] beatlesOrderDto 7 0⟩
